import Mathlib

/-!
Shallow embedding of the file-based request/response queue of this
repository: the consumer loop in `queue_processor.py` (request parsing,
provider dispatch, response records, queue sweeps, graceful shutdown)
and the producer-side submit/wait loop of `test_full_pipeline.py`
(`test_queue_to_qwen`). Filesystem directories are modelled as
association lists keyed by the file id (the filename stem); external
effects (the qwen subprocess, the HTTP API, wall-clock timestamps) are
modelled by an environment record describing their outcomes.
-/

namespace QueueProc

/-- JSON scalar values that appear in the records this program writes. -/
inductive JVal where
  | jstr (s : String)
  | jint (n : Int)
deriving DecidableEq, Repr

/-- One entry of the `history` field of a request record
(`{"role": str, "content": str, ...}`); absent keys are `none`,
mirroring `msg.get(...)` defaults in `process_with_qwen_cli`. -/
structure HistMsg where
  role : Option String
  content : Option String
deriving DecidableEq, Repr

/-- A parsed request record (`json.load` result in `process_request`).
Absent keys are `none`, mirroring `request_data.get(...)` defaults. -/
structure RequestData where
  user_id : Option Int
  prompt : Option String
  history : List HistMsg
deriving DecidableEq, Repr

/-- Result of `json.load` on a request file: either a parsed record or a
parse failure carrying the exception text `str(e)`. -/
inductive ParseResult where
  | ok (r : RequestData)
  | malformed (errMsg : String)
deriving DecidableEq, Repr

/-- A file in the queue directory: its filename stem
(`request_id = request_file.stem`) and what parsing its contents yields. -/
structure ReqFile where
  id : String
  parse : ParseResult
deriving DecidableEq, Repr

/-- Outcome of the external qwen CLI subprocess attempt, covering the
branches of `process_with_qwen_cli`: normal completion with a return
code and captured stdout/stderr, `asyncio.TimeoutError`,
`FileNotFoundError` (executable missing), or any other exception. -/
inductive CliOutcome where
  | exited (returncode : Int) (stdout stderr : String)
  | timedOut
  | execMissing
  | otherError
deriving DecidableEq, Repr

/-- The external world as seen by one `process_request` call: the CLI
subprocess outcome, whether `QWEN_CODE_API_URL` is configured, the HTTP
API result (`none` models a non-200 status or an exception), and the two
timestamp renderings (`datetime.now().isoformat()` and
`strftime` with hours-minutes-seconds). -/
structure ProviderEnv where
  cliOutcome : CliOutcome
  apiConfigured : Bool
  apiResult : Option String
  nowIso : String
  nowHMS : String
deriving DecidableEq, Repr

/-- Python slice `xs[-n:]`: the last `n` elements (the whole list when it
has at most `n` elements). -/
def pyLastN (n : Nat) (xs : List α) : List α :=
  xs.drop (xs.length - n)

/-- One line of the context string: `f"{role}: {content}\n"` with the
`.get` defaults of `process_with_qwen_cli`. -/
def fmtMsg (m : HistMsg) : String :=
  (m.role.getD "unknown") ++ ": " ++ (m.content.getD "") ++ "\n"

/-- The `context` string built in `process_with_qwen_cli` (lines 64-69)
and passed to the external tool on stdin: the formatted lines of
`history[-5:]`, accumulated in order by `context += ...`. -/
def buildContext (history : List HistMsg) : String :=
  (pyLastN 5 history).foldl (fun acc m => acc ++ fmtMsg m) ""

/-- Plain concatenation of the formatted history entries, in order. -/
def histConcat : List HistMsg → String
  | [] => ""
  | m :: ms => fmtMsg m ++ histConcat ms

/-- Whitespace for the purposes of Python `str.strip()`. -/
def isSpaceChar (c : Char) : Bool :=
  c = ' ' || c = '\t' || c = '\n' || c = '\r'

/-- Python `s.strip()`: remove leading and trailing whitespace. -/
def pyStrip (s : String) : String :=
  ⟨((s.data.dropWhile isSpaceChar).reverse.dropWhile isSpaceChar).reverse⟩

/-- The fixed message returned by `process_with_qwen_cli` on
`asyncio.TimeoutError`. -/
def cliTimeoutMsg : String := "⏱ Превышено время ожидания ответа от Qwen Code"

/-- The CLI provider `process_with_qwen_cli`: on exit code 0 the stripped
stdout; on a nonzero exit the stripped stdout if non-empty, else
`"Error: " + stderr`; the fixed timeout message on timeout; `None` when
the executable is missing or on any other exception. -/
def process_with_qwen_cli (env : ProviderEnv) (_request_data : RequestData) :
    Option String :=
  match env.cliOutcome with
  | .exited rc out err =>
      if rc = 0 then some (pyStrip out)
      else if pyStrip out ≠ "" then some (pyStrip out)
      else some ("Error: " ++ err)
  | .timedOut => some cliTimeoutMsg
  | .execMissing => none
  | .otherError => none

/-- The HTTP provider `process_with_qwen_api`: `None` when
`QWEN_CODE_API_URL` is unset, otherwise the call outcome. -/
def process_with_qwen_api (env : ProviderEnv) : Option String :=
  if env.apiConfigured then env.apiResult else none

/-- Python truthiness test `not response_text` on an optional string:
true for `None` and for the empty string. -/
def pyFalsy : Option String → Bool
  | none => true
  | some s => s = ""

/-- The request prompt, `request_data.get("prompt", "")`. -/
def pyPrompt (r : RequestData) : String := r.prompt.getD ""

/-- The fallback text of `generate_mock_response`, built from the request
prompt and the current time rendering. -/
def generate_mock_response (r : RequestData) (nowHMS : String) : String :=
  "🤖 **Qwen Code (тестовый режим)**\n\nПолучен ваш запрос:\n> "
    ++ pyPrompt r
    ++ "\n\n---\n\nЭто демонстрационный ответ. Для реальной работы:\n\n"
    ++ "**Вариант 1: Qwen Code CLI**\n```bash\nnpm install -g @qwen-code/qwen-code\n```\n\n"
    ++ "**Вариант 2: API**\nУстановите `QWEN_CODE_API_URL` в `.env`\n\n---\n"
    ++ "*Запрос обработан: " ++ nowHMS ++ "*\n"

/-- The provider dispatch of `process_request` (lines 186-202):
`response_text` starts `None`; the CLI is tried; the API is tried when
the result so far is falsy and a URL is configured; the mock fallback is
used when the result is still falsy. -/
def dispatchResponse (env : ProviderEnv) (r : RequestData) : String :=
  let r1 := process_with_qwen_cli env r
  let r2 := if pyFalsy r1 && env.apiConfigured then process_with_qwen_api env else r1
  match r2 with
  | some s => if s = "" then generate_mock_response r env.nowHMS else s
  | none => generate_mock_response r env.nowHMS

/-- First provider answer that is non-empty (Python-truthy), out of an
ordered list of provider results. -/
def firstTruthy : List (Option String) → Option String
  | [] => none
  | o :: rest =>
      match o with
      | some s => if s = "" then firstTruthy rest else some s
      | none => firstTruthy rest

/-- The provider order the code actually uses: CLI subprocess first, then
the HTTP API, then the mock fallback. -/
def codePriorityResult (env : ProviderEnv) (r : RequestData) : String :=
  (firstTruthy [process_with_qwen_cli env r, process_with_qwen_api env,
    some (generate_mock_response r env.nowHMS)]).getD ""

/-- Modelled from the spec: the provider order the spec states — remote
HTTP endpoint first when configured, then the CLI subprocess, then the
fallback; the response is the first non-empty answer in that order. -/
def specPriorityResult (env : ProviderEnv) (r : RequestData) : String :=
  (firstTruthy [process_with_qwen_api env, process_with_qwen_cli env r,
    some (generate_mock_response r env.nowHMS)]).getD ""

/-- The `user_id` echoed into the response,
`request_data.get("user_id", "unknown")`. -/
def pyUserId (r : RequestData) : JVal :=
  match r.user_id with
  | some n => .jint n
  | none => .jstr "unknown"

/-- The `response_data` dict written on success (lines 205-211), as an
ordered field list. -/
def completedJson (id : String) (user : JVal) (response ts : String) :
    List (String × JVal) :=
  [("id", .jstr id), ("user_id", user), ("response", .jstr response),
   ("timestamp", .jstr ts), ("status", .jstr "completed")]

/-- The `error_data` dict written on failure (lines 230-235), as an
ordered field list. -/
def errorJson (id err ts : String) : List (String × JVal) :=
  [("id", .jstr id), ("error", .jstr err), ("timestamp", .jstr ts),
   ("status", .jstr "error")]

/-- Lookup of a key in a JSON object (field list). -/
def getField (fields : List (String × JVal)) (k : String) : Option JVal :=
  (fields.find? (fun p => p.1 == k)).map Prod.snd

/-- The two shared directories: the queue directory (request files) and
the responses directory (response records keyed by id). -/
structure FsState where
  queue : List ReqFile
  responses : List (String × List (String × JVal))
deriving DecidableEq, Repr

/-- Writing a file: `open(path, "w")` overwrites any file of the same
name. -/
def setFile (dir : List (String × α)) (id : String) (v : α) :
    List (String × α) :=
  (id, v) :: dir.filter (fun p => !(p.1 == id))

/-- Reading the file named after `id`, when present. -/
def lookupFile (dir : List (String × α)) (id : String) : Option α :=
  (dir.find? (fun p => p.1 == id)).map Prod.snd

/-- Whether a request file with this id is on disk. -/
def reqExists (st : FsState) (id : String) : Bool :=
  st.queue.any (fun g => g.id == id)

/-- Whether a response file with this id is on disk
(`response_file.exists()`). -/
def responseExists (st : FsState) (id : String) : Bool :=
  (lookupFile st.responses id).isSome

/-- The consumer `process_request` on one request file: on a successful
parse, dispatch to the providers, write the completed response record,
and unlink the request file (best-effort); on a parse failure (or other
exception), write the error record — the `except` branch performs no
request-file cleanup. -/
def processRequest (env : ProviderEnv) (f : ReqFile) (st : FsState) :
    FsState :=
  match f.parse with
  | .ok r =>
      let response_text := dispatchResponse env r
      let resp := completedJson f.id (pyUserId r) response_text env.nowIso
      let st1 : FsState := { st with responses := setFile st.responses f.id resp }
      { st1 with queue := st1.queue.filter (fun g => !(g.id == f.id)) }
  | .malformed e =>
      { st with responses := setFile st.responses f.id (errorJson f.id e env.nowIso) }

/-- One full sweep of `monitor_queue` with the running flag up
throughout: glob the queue directory once, then process every file of
that snapshot in order. -/
def sweepAll (env : ProviderEnv) (st : FsState) : FsState :=
  st.queue.foldl (fun s f => processRequest env f s) st

/-- The per-file loop of one sweep, with the running flag read before
each file (`if not running: break`); `i` indexes successive reads of the
flag, so a flag flip during a file's processing is seen at the next
read. Returns the final state and the next flag index. -/
def sweepFiles (env : ProviderEnv) (flags : Nat → Bool) :
    Nat → List ReqFile → FsState → FsState × Nat
  | i, [], st => (st, i)
  | i, f :: fs, st =>
      if flags i then sweepFiles env flags (i + 1) fs (processRequest env f st)
      else (st, i)

/-- The outer `while running` loop of `monitor_queue`, up to `fuel`
sweeps: the flag is read before each sweep, and within a sweep before
each file; each sweep processes the snapshot of the queue directory
taken at its start. -/
def monitorQueue (env : ProviderEnv) (flags : Nat → Bool) :
    Nat → Nat → FsState → FsState
  | 0, _, st => st
  | fuel + 1, i, st =>
      if flags i then
        let p := sweepFiles env flags (i + 1) st.queue st
        monitorQueue env flags fuel p.2 p.1
      else st

/-- The producer writing the request file into the queue directory
(`test_full_pipeline.py` lines 31-36). -/
def submitRequest (f : ReqFile) (st : FsState) : FsState :=
  { st with queue := st.queue.filter (fun g => !(g.id == f.id)) ++ [f] }

/-- The producer wait loop (`test_full_pipeline.py` lines 43-54):
`waited = 0; while waited < max_wait: sleep(1); waited += 1;
if response_file.exists(): break`. `existsAt t` is the existence check
after `t` one-second sleeps; the result is the final value of `waited`. -/
def waitLoop (existsAt : Nat → Bool) : Nat → Nat → Nat
  | 0, waited => waited
  | fuel + 1, waited =>
      let w := waited + 1
      if existsAt w then w else waitLoop existsAt fuel w

/-- What the producer returns: the response text it read, or a timeout. -/
inductive PipelineResult where
  | answered (text : JVal)
  | timedOut
deriving DecidableEq, Repr

/-- The producer consuming a found response (lines 63-83): read the
response file, take `response_data.get("response", "")`, then unlink the
request file and the response file when they exist. -/
def consumeResponse (id : String) (st : FsState) : JVal × FsState :=
  let text :=
    match lookupFile st.responses id with
    | some fields => (getField fields "response").getD (.jstr "")
    | none => .jstr ""
  let st1 : FsState := { st with queue := st.queue.filter (fun g => !(g.id == id)) }
  let st2 : FsState := { st1 with responses := st1.responses.filter (fun p => !(p.1 == id)) }
  (text, st2)

/-- The producer wait-and-consume phase (`test_full_pipeline.py` lines
43-83) against a fixed world: run the wait loop; if the response file
exists, read it and clean up both files; otherwise take the timeout path,
which unlinks the request file and reports failure. Returns the outcome,
the number of one-second sleeps performed, and the final state. -/
def awaitResponse (existsAt : Nat → Bool) (maxWait : Nat) (id : String)
    (st : FsState) : PipelineResult × Nat × FsState :=
  let w := waitLoop existsAt maxWait 0
  if existsAt w then
    let p := consumeResponse id st
    (.answered p.1, w, p.2)
  else
    (.timedOut, w,
      { st with queue := st.queue.filter (fun g => !(g.id == id)) })

/-- A provider environment in which every provider is unavailable: the
CLI executable is missing and no API URL is configured. -/
def envNoProviders : ProviderEnv :=
  ⟨.execMissing, false, none, "2024-01-01T00:00:00", "00:00:00"⟩

/-- A provider environment in which the CLI subprocess exceeds its
120-second bound and no API URL is configured. -/
def envCliTimeout : ProviderEnv :=
  ⟨.timedOut, false, none, "2024-01-01T00:00:00", "00:00:00"⟩

/-- A provider environment in which both the CLI and the configured API
succeed, with distinct answers. -/
def envBothAnswer : ProviderEnv :=
  ⟨.exited 0 "cli answer" "", true, some "api answer", "2024-01-01T00:00:00", "00:00:00"⟩

/-- A small well-formed request record. -/
def reqSimple : RequestData := ⟨some 9, some "hi", []⟩

/-- A request file whose contents fail to parse, with the diagnostic
`json.load` raises on non-JSON input. -/
def badFile : ReqFile :=
  ⟨"bad1", .malformed "Expecting value: line 1 column 1 (char 0)"⟩

/-- A six-entry conversation history, one more than the context window. -/
def histSix : List HistMsg :=
  [⟨some "user", some "m1"⟩, ⟨some "assistant", some "m2"⟩,
   ⟨some "user", some "m3"⟩, ⟨some "assistant", some "m4"⟩,
   ⟨some "user", some "m5"⟩, ⟨some "assistant", some "m6"⟩]

/-- Accumulating formatted history lines by `foldl` is plain
concatenation of the lines. -/
theorem ctx_foldl_eq (l : List HistMsg) (acc : String) :
    l.foldl (fun a m => a ++ fmtMsg m) acc = acc ++ histConcat l := by
  induction l generalizing acc with
  | nil => simp [histConcat, String.append_empty]
  | cons m ms ih => simp [histConcat, ih, String.append_assoc]

/-- A string with a non-empty right part is non-empty. -/
theorem append_ne_empty_right (s t : String) (ht : t ≠ "") : s ++ t ≠ "" := by
  intro h
  apply ht
  have h2 := congrArg String.data h
  rw [String.data_append] at h2
  exact String.ext (by simpa using (List.append_eq_nil.mp (by simpa using h2)).2)

/-- The fallback text is non-empty for every request. -/
theorem mock_ne_empty (r : RequestData) (now : String) :
    generate_mock_response r now ≠ "" := by
  unfold generate_mock_response
  refine append_ne_empty_right _ _ ?_
  decide

/-- The provider dispatch never produces the empty string. -/
theorem dispatchResponse_ne_empty (env : ProviderEnv) (r : RequestData) :
    dispatchResponse env r ≠ "" := by
  cases h2 : (if pyFalsy (process_with_qwen_cli env r) && env.apiConfigured then
      process_with_qwen_api env else process_with_qwen_cli env r) with
  | none =>
      simp only [dispatchResponse]
      rw [h2]
      exact mock_ne_empty _ _
  | some s =>
      simp only [dispatchResponse]
      rw [h2]
      dsimp only
      by_cases hs : s = ""
      · rw [if_pos hs]
        exact mock_ne_empty _ _
      · rw [if_neg hs]
        exact hs

/-- Reading back the file just written yields the value written. -/
theorem lookupFile_setFile_self (d : List (String × α)) (id : String) (v : α) :
    lookupFile (setFile d id v) id = some v := by
  simp [lookupFile, setFile, List.find?]

/-- C7: for every request record whose history holds more than 5
entries, the context string the subprocess provider builds contains
exactly the formatted most recent 5 entries, in their original order
(oldest first): it is the concatenation over the length-5 suffix of the
history. -/
theorem context_window (h : List HistMsg) (hlen : 5 < h.length) :
    buildContext h = histConcat (h.drop (h.length - 5))
    ∧ (h.drop (h.length - 5)).length = 5
    ∧ h.take (h.length - 5) ++ h.drop (h.length - 5) = h := by
  refine ⟨?_, ?_, List.take_append_drop _ h⟩
  · rw [buildContext, pyLastN, ctx_foldl_eq]
    rfl
  · rw [List.length_drop]
    omega

/-- Witness for C7 on a concrete six-entry history. -/
theorem context_window_witness :
    5 < histSix.length
    ∧ (buildContext histSix = histConcat (histSix.drop (histSix.length - 5))
       ∧ (histSix.drop (histSix.length - 5)).length = 5
       ∧ histSix.take (histSix.length - 5) ++ histSix.drop (histSix.length - 5)
           = histSix) :=
  ⟨by decide, context_window histSix (by decide)⟩

/-- Counterexample to C4: with a configured API and a working CLI that
give different answers, the code returns the CLI answer, while the
claimed priority order (HTTP first) would return the API answer. -/
theorem provider_priority_counterexample :
    dispatchResponse envBothAnswer reqSimple = "cli answer"
    ∧ specPriorityResult envBothAnswer reqSimple = "api answer" := by
  constructor <;> rfl

/-- C4 (amended): the consumer tries the providers in the fixed order
(1) local CLI subprocess, (2) remote HTTP endpoint when configured,
(3) fallback text, and the response text equals the result of the first
provider in that order that returns a non-empty answer. -/
theorem provider_priority_order (env : ProviderEnv) (r : RequestData) :
    dispatchResponse env r = codePriorityResult env r := by
  cases hc : process_with_qwen_cli env r with
  | some s =>
      by_cases hs : s = ""
      · subst hs
        cases hA : env.apiConfigured with
        | false =>
            simp [dispatchResponse, codePriorityResult, firstTruthy, pyFalsy,
              process_with_qwen_api, hc, hA, if_neg (mock_ne_empty r env.nowHMS)]
        | true =>
            cases hr : env.apiResult with
            | none =>
                simp [dispatchResponse, codePriorityResult, firstTruthy, pyFalsy,
                  process_with_qwen_api, hc, hA, hr,
                  if_neg (mock_ne_empty r env.nowHMS)]
            | some t =>
                by_cases ht : t = "" <;>
                  simp [dispatchResponse, codePriorityResult, firstTruthy, pyFalsy,
                    process_with_qwen_api, hc, hA, hr, ht,
                    if_neg (mock_ne_empty r env.nowHMS)]
      · simp [dispatchResponse, codePriorityResult, firstTruthy, pyFalsy, hc, hs]
  | none =>
      cases hA : env.apiConfigured with
      | false =>
          simp [dispatchResponse, codePriorityResult, firstTruthy, pyFalsy,
            process_with_qwen_api, hc, hA, if_neg (mock_ne_empty r env.nowHMS)]
      | true =>
          cases hr : env.apiResult with
          | none =>
              simp [dispatchResponse, codePriorityResult, firstTruthy, pyFalsy,
                process_with_qwen_api, hc, hA, hr,
                if_neg (mock_ne_empty r env.nowHMS)]
          | some t =>
              by_cases ht : t = "" <;>
                simp [dispatchResponse, codePriorityResult, firstTruthy, pyFalsy,
                  process_with_qwen_api, hc, hA, hr, ht,
                  if_neg (mock_ne_empty r env.nowHMS)]

/-- Counterexample to C2: after the consumer handles an unparsable
request file, the request file is still in the queue directory — the
error path attempts no deletion — so the next sweep's snapshot contains
it and it is picked up again. -/
theorem malformed_consumption_counterexample :
    (processRequest envNoProviders badFile ⟨[badFile], []⟩).queue = [badFile]
    ∧ (sweepAll envNoProviders ⟨[badFile], []⟩).queue = [badFile]
    ∧ badFile ∈ (sweepAll envNoProviders ⟨[badFile], []⟩).queue :=
  ⟨rfl, rfl, by decide⟩

/-- C2 (amended): for every request file whose contents fail to parse,
the consumer writes a response record with status error and the
diagnostic string, but it does not delete the request file: the queue
directory is left unchanged, so the same file is present in every later
sweep's snapshot and is processed again. -/
theorem malformed_consumption (env : ProviderEnv) (id e : String)
    (st : FsState) :
    processRequest env ⟨id, .malformed e⟩ st
      = { st with responses := setFile st.responses id (errorJson id e env.nowIso) }
    ∧ getField (errorJson id e env.nowIso) "status" = some (.jstr "error")
    ∧ getField (errorJson id e env.nowIso) "error" = some (.jstr e)
    ∧ (processRequest env ⟨id, .malformed e⟩ st).queue = st.queue :=
  ⟨rfl, rfl, rfl, rfl⟩

/-- Counterexample to C8: the error-path response record contains no
user_id field and no response field. -/
theorem response_schema_counterexample :
    lookupFile (processRequest envNoProviders badFile ⟨[badFile], []⟩).responses
        "bad1"
      = some (errorJson "bad1" "Expecting value: line 1 column 1 (char 0)"
          "2024-01-01T00:00:00")
    ∧ getField (errorJson "bad1" "Expecting value: line 1 column 1 (char 0)"
        "2024-01-01T00:00:00") "user_id" = none
    ∧ getField (errorJson "bad1" "Expecting value: line 1 column 1 (char 0)"
        "2024-01-01T00:00:00") "response" = none :=
  ⟨rfl, rfl, rfl⟩

/-- C8 (amended): every response record the consumer writes contains the
fields id (echoing the request id), timestamp, and status, with status
either completed or error; a completed record additionally contains
user_id and response, while an error record instead contains the error
diagnostic. -/
theorem response_schema (env : ProviderEnv) (f : ReqFile) (st : FsState)
    (fields : List (String × JVal))
    (hlook : lookupFile (processRequest env f st).responses f.id = some fields) :
    getField fields "id" = some (.jstr f.id)
    ∧ getField fields "timestamp" = some (.jstr env.nowIso)
    ∧ ((getField fields "status" = some (.jstr "completed")
          ∧ (∃ u, getField fields "user_id" = some u)
          ∧ (∃ s, getField fields "response" = some (.jstr s)))
       ∨ (getField fields "status" = some (.jstr "error")
          ∧ (∃ d, getField fields "error" = some (.jstr d)))) := by
  cases f with
  | mk id p =>
    cases p with
    | ok r =>
        simp only [processRequest] at hlook
        rw [lookupFile_setFile_self] at hlook
        injection hlook with hF
        subst hF
        exact ⟨rfl, rfl, .inl ⟨rfl, ⟨pyUserId r, rfl⟩,
          ⟨dispatchResponse env r, rfl⟩⟩⟩
    | malformed e =>
        simp only [processRequest] at hlook
        rw [lookupFile_setFile_self] at hlook
        injection hlook with hF
        subst hF
        exact ⟨rfl, rfl, .inr ⟨rfl, ⟨e, rfl⟩⟩⟩

/-- Witness for C8 (amended) on a concrete malformed request. -/
theorem response_schema_witness :
    (lookupFile (processRequest envNoProviders badFile ⟨[badFile], []⟩).responses
        badFile.id
      = some (errorJson "bad1" "Expecting value: line 1 column 1 (char 0)"
          "2024-01-01T00:00:00"))
    ∧ (getField (errorJson "bad1" "Expecting value: line 1 column 1 (char 0)"
          "2024-01-01T00:00:00") "id" = some (.jstr badFile.id)
       ∧ getField (errorJson "bad1" "Expecting value: line 1 column 1 (char 0)"
          "2024-01-01T00:00:00") "timestamp"
           = some (.jstr envNoProviders.nowIso)
       ∧ ((getField (errorJson "bad1" "Expecting value: line 1 column 1 (char 0)"
              "2024-01-01T00:00:00") "status" = some (.jstr "completed")
             ∧ (∃ u, getField (errorJson "bad1"
                 "Expecting value: line 1 column 1 (char 0)"
                 "2024-01-01T00:00:00") "user_id" = some u)
             ∧ (∃ s, getField (errorJson "bad1"
                 "Expecting value: line 1 column 1 (char 0)"
                 "2024-01-01T00:00:00") "response" = some (.jstr s)))
          ∨ (getField (errorJson "bad1" "Expecting value: line 1 column 1 (char 0)"
               "2024-01-01T00:00:00") "status" = some (.jstr "error")
             ∧ (∃ d, getField (errorJson "bad1"
                 "Expecting value: line 1 column 1 (char 0)"
                 "2024-01-01T00:00:00") "error" = some (.jstr d))))) :=
  ⟨rfl, response_schema envNoProviders badFile ⟨[badFile], []⟩
    (errorJson "bad1" "Expecting value: line 1 column 1 (char 0)"
      "2024-01-01T00:00:00") rfl⟩

/-- C10: every response record the consumer writes with status completed
has a non-empty response text: an empty or absent provider answer falls
through to the mock fallback, whose text is non-empty. -/
theorem completed_response_nonempty (env : ProviderEnv) (f : ReqFile)
    (st : FsState) (fields : List (String × JVal))
    (hlook : lookupFile (processRequest env f st).responses f.id = some fields)
    (hstatus : getField fields "status" = some (.jstr "completed")) :
    ∃ s, getField fields "response" = some (.jstr s) ∧ s ≠ "" := by
  cases f with
  | mk id p =>
    cases p with
    | ok r =>
        simp only [processRequest] at hlook
        rw [lookupFile_setFile_self] at hlook
        injection hlook with hF
        subst hF
        exact ⟨dispatchResponse env r, rfl, dispatchResponse_ne_empty env r⟩
    | malformed e =>
        simp only [processRequest] at hlook
        rw [lookupFile_setFile_self] at hlook
        injection hlook with hF
        subst hF
        have hstat : getField (errorJson id e env.nowIso) "status"
            = some (.jstr "error") := rfl
        rw [hstat] at hstatus
        exact absurd hstatus (by decide)

/-- Witness for C10 on a concrete request answered by the fallback. -/
theorem completed_response_nonempty_witness :
    (lookupFile (processRequest envNoProviders ⟨"r1", .ok reqSimple⟩
          ⟨[⟨"r1", .ok reqSimple⟩], []⟩).responses "r1"
        = some (completedJson "r1" (pyUserId reqSimple)
            (dispatchResponse envNoProviders reqSimple) envNoProviders.nowIso)
      ∧ getField (completedJson "r1" (pyUserId reqSimple)
            (dispatchResponse envNoProviders reqSimple) envNoProviders.nowIso)
          "status" = some (.jstr "completed"))
    ∧ ∃ s, getField (completedJson "r1" (pyUserId reqSimple)
          (dispatchResponse envNoProviders reqSimple) envNoProviders.nowIso)
        "response" = some (.jstr s) ∧ s ≠ "" :=
  ⟨⟨rfl, rfl⟩, completed_response_nonempty envNoProviders ⟨"r1", .ok reqSimple⟩
    ⟨[⟨"r1", .ok reqSimple⟩], []⟩
    (completedJson "r1" (pyUserId reqSimple)
      (dispatchResponse envNoProviders reqSimple) envNoProviders.nowIso)
    rfl rfl⟩

/-- Reading a file from a directory whose first entry has that name. -/
theorem lookupFile_cons_self (id : String) (v : α) (d : List (String × α)) :
    lookupFile ((id, v) :: d) id = some v := by
  simp [lookupFile, List.find?]

/-- The wait loop performs every remaining sleep when the response file
never appears. -/
theorem waitLoop_never (existsAt : Nat → Bool)
    (hnever : ∀ t, existsAt t = false) :
    ∀ fuel w, waitLoop existsAt fuel w = w + fuel := by
  intro fuel
  induction fuel with
  | zero => intro w; rfl
  | succ n ih =>
      intro w
      rw [waitLoop, hnever (w + 1), if_neg (by simp), ih]
      omega

/-- No request file named `id` survives filtering out that name. -/
theorem any_filter_not (l : List ReqFile) (id : String) :
    ((l.filter (fun g => !(g.id == id))).any (fun g => g.id == id)) = false := by
  induction l with
  | nil => rfl
  | cons a l ih =>
      by_cases h : a.id = id <;> simp [List.filter_cons, h, ih]

/-- C1: for every valid request record, if the producer writes the
request file and the consumer processes it, writing a response file with
text T, then the producer's wait loop finds the response after one
sleep, returns T, and afterwards both the request file and the response
file are absent from their directories. -/
theorem round_trip (env : ProviderEnv) (r : RequestData) (id : String)
    (maxWait : Nat) (hW : 1 ≤ maxWait) :
    lookupFile (processRequest env ⟨id, .ok r⟩
        (submitRequest ⟨id, .ok r⟩ ⟨[], []⟩)).responses id
      = some (completedJson id (pyUserId r) (dispatchResponse env r) env.nowIso)
    ∧ awaitResponse
        (fun _ => responseExists
          (processRequest env ⟨id, .ok r⟩ (submitRequest ⟨id, .ok r⟩ ⟨[], []⟩)) id)
        maxWait id
        (processRequest env ⟨id, .ok r⟩ (submitRequest ⟨id, .ok r⟩ ⟨[], []⟩))
      = (.answered (.jstr (dispatchResponse env r)), 1, ⟨[], []⟩) := by
  have hst2 : processRequest env ⟨id, .ok r⟩ (submitRequest ⟨id, .ok r⟩ ⟨[], []⟩)
      = ⟨[], [(id, completedJson id (pyUserId r) (dispatchResponse env r)
          env.nowIso)]⟩ := by
    simp [submitRequest, processRequest, setFile, List.filter_cons]
  rw [hst2]
  have hex : responseExists
      (⟨[], [(id, completedJson id (pyUserId r) (dispatchResponse env r)
        env.nowIso)]⟩ : FsState) id = true := by
    simp [responseExists, lookupFile, List.find?]
  rw [hex]
  obtain ⟨n, rfl⟩ : ∃ n, maxWait = n + 1 := ⟨maxWait - 1, by omega⟩
  refine ⟨lookupFile_cons_self _ _ _, ?_⟩
  have hw : waitLoop (fun _ => true) (n + 1) 0 = 1 := by simp [waitLoop]
  simp only [awaitResponse, hw, if_pos rfl]
  have hcons : consumeResponse id
      (⟨[], [(id, completedJson id (pyUserId r) (dispatchResponse env r)
        env.nowIso)]⟩ : FsState)
      = (.jstr (dispatchResponse env r), ⟨[], []⟩) := by
    simp [consumeResponse, lookupFile, List.find?, getField, completedJson,
      List.filter_cons]
  rw [hcons]
  simp

/-- Witness for C1 with the fallback as the answering provider. -/
theorem round_trip_witness :
    1 ≤ 3
    ∧ (lookupFile (processRequest envNoProviders ⟨"rt1", .ok reqSimple⟩
          (submitRequest ⟨"rt1", .ok reqSimple⟩ ⟨[], []⟩)).responses "rt1"
        = some (completedJson "rt1" (pyUserId reqSimple)
            (dispatchResponse envNoProviders reqSimple) envNoProviders.nowIso)
      ∧ awaitResponse
          (fun _ => responseExists
            (processRequest envNoProviders ⟨"rt1", .ok reqSimple⟩
              (submitRequest ⟨"rt1", .ok reqSimple⟩ ⟨[], []⟩)) "rt1")
          3 "rt1"
          (processRequest envNoProviders ⟨"rt1", .ok reqSimple⟩
            (submitRequest ⟨"rt1", .ok reqSimple⟩ ⟨[], []⟩))
        = (.answered (.jstr (dispatchResponse envNoProviders reqSimple)), 1,
            ⟨[], []⟩)) :=
  ⟨by decide, round_trip envNoProviders reqSimple "rt1" 3 (by decide)⟩

/-- C5: if no response file for a submitted request ever appears, the
producer's wait loop performs exactly max_wait one-second sleeps, takes
the timeout outcome, and the request file is deleted, so it is no longer
on disk when the loop returns. -/
theorem timeout_cleanup (existsAt : Nat → Bool) (maxWait : Nat) (id : String)
    (st : FsState) (hnever : ∀ t, existsAt t = false) :
    awaitResponse existsAt maxWait id st
      = (.timedOut, maxWait,
          ⟨st.queue.filter (fun g => !(g.id == id)), st.responses⟩)
    ∧ reqExists (awaitResponse existsAt maxWait id st).2.2 id = false := by
  have hw : waitLoop existsAt maxWait 0 = maxWait := by
    rw [waitLoop_never existsAt hnever]
    omega
  have h1 : awaitResponse existsAt maxWait id st
      = (.timedOut, maxWait,
          ⟨st.queue.filter (fun g => !(g.id == id)), st.responses⟩) := by
    simp [awaitResponse, hw, hnever maxWait]
  refine ⟨h1, ?_⟩
  rw [h1]
  exact any_filter_not st.queue id

/-- Witness for C5 on a concrete never-answered request. -/
theorem timeout_cleanup_witness :
    awaitResponse (fun _ => false) 3 "r1" ⟨[⟨"r1", .ok reqSimple⟩], []⟩
      = (.timedOut, 3,
          ⟨([⟨"r1", .ok reqSimple⟩] : List ReqFile).filter
            (fun g => !(g.id == "r1")), []⟩)
    ∧ reqExists
        (awaitResponse (fun _ => false) 3 "r1"
          ⟨[⟨"r1", .ok reqSimple⟩], []⟩).2.2 "r1" = false :=
  timeout_cleanup (fun _ => false) 3 "r1" ⟨[⟨"r1", .ok reqSimple⟩], []⟩
    (fun _ => rfl)

/-- C6: a sweep containing one unparsable request file and one valid
request file (distinct ids) yields an error response for the unparsable
id only, the sweep continues past the failure, and the valid file still
receives a normal completed response. -/
theorem failure_isolation (env : ProviderEnv) (id1 id2 e : String)
    (r : RequestData) (hne : id1 ≠ id2) :
    lookupFile (sweepAll env
        ⟨[⟨id1, .malformed e⟩, ⟨id2, .ok r⟩], []⟩).responses id1
      = some (errorJson id1 e env.nowIso)
    ∧ lookupFile (sweepAll env
        ⟨[⟨id1, .malformed e⟩, ⟨id2, .ok r⟩], []⟩).responses id2
      = some (completedJson id2 (pyUserId r) (dispatchResponse env r)
          env.nowIso) := by
  have hb : (id1 == id2) = false := by simp [hne]
  have hb2 : (id2 == id1) = false := by simp [Ne.symm hne]
  constructor <;>
    simp [sweepAll, processRequest, setFile, lookupFile, List.find?,
      List.filter_cons, hb, hb2]

/-- Witness for C6 on two concrete request files. -/
theorem failure_isolation_witness :
    ("a" : String) ≠ "b"
    ∧ (lookupFile (sweepAll envNoProviders
          ⟨[⟨"a", .malformed "boom"⟩, ⟨"b", .ok reqSimple⟩], []⟩).responses "a"
        = some (errorJson "a" "boom" envNoProviders.nowIso)
      ∧ lookupFile (sweepAll envNoProviders
          ⟨[⟨"a", .malformed "boom"⟩, ⟨"b", .ok reqSimple⟩], []⟩).responses "b"
        = some (completedJson "b" (pyUserId reqSimple)
            (dispatchResponse envNoProviders reqSimple)
            envNoProviders.nowIso)) :=
  ⟨by decide, failure_isolation envNoProviders "a" "b" "boom" reqSimple
    (by decide)⟩

/-- Counterexample to C3: when the CLI subprocess exceeds its 120-second
bound (and no API is configured), the written response is the CLI's
fixed timeout message, not the deterministic fallback text — though its
status is still completed. -/
theorem provider_fallback_counterexample :
    lookupFile (processRequest envCliTimeout ⟨"r1", .ok reqSimple⟩
        ⟨[⟨"r1", .ok reqSimple⟩], []⟩).responses "r1"
      = some (completedJson "r1" (.jint 9) cliTimeoutMsg "2024-01-01T00:00:00")
    ∧ cliTimeoutMsg ≠ generate_mock_response reqSimple "00:00:00"
    ∧ getField (completedJson "r1" (.jint 9) cliTimeoutMsg
        "2024-01-01T00:00:00") "status" = some (.jstr "completed") :=
  ⟨rfl, by decide, rfl⟩

/-- C3 (amended): for every request processed while the subprocess
provider yields no answer (its executable is missing, or its invocation
raises an unexpected exception) and the remote HTTP provider fails or is
unconfigured, the written response record's text equals the
deterministic fallback text for that request and its status is
completed, not error. (On a subprocess timeout or nonzero exit the CLI
provider itself returns a non-empty message which becomes the response,
so the fallback is not reached.) -/
theorem provider_fallback (env : ProviderEnv) (r : RequestData) (id : String)
    (st : FsState)
    (hcli : env.cliOutcome = .execMissing ∨ env.cliOutcome = .otherError)
    (hapi : env.apiConfigured = false ∨ env.apiResult = none
            ∨ env.apiResult = some "") :
    lookupFile (processRequest env ⟨id, .ok r⟩ st).responses id
      = some (completedJson id (pyUserId r)
          (generate_mock_response r env.nowHMS) env.nowIso)
    ∧ getField (completedJson id (pyUserId r)
          (generate_mock_response r env.nowHMS) env.nowIso) "status"
        = some (.jstr "completed") := by
  have hc : process_with_qwen_cli env r = none := by
    rcases hcli with h | h <;> simp [process_with_qwen_cli, h]
  have hdisp : dispatchResponse env r = generate_mock_response r env.nowHMS := by
    rcases hapi with h | h | h
    · simp [dispatchResponse, hc, pyFalsy, h]
    · cases hA : env.apiConfigured <;>
        simp [dispatchResponse, process_with_qwen_api, hc, pyFalsy, hA, h]
    · cases hA : env.apiConfigured <;>
        simp [dispatchResponse, process_with_qwen_api, hc, pyFalsy, hA, h]
  constructor
  · rw [← hdisp]
    simp [processRequest, lookupFile_setFile_self]
  · rfl

/-- Witness for C3 (amended) with a missing CLI executable and no API. -/
theorem provider_fallback_witness :
    (envNoProviders.cliOutcome = .execMissing
      ∨ envNoProviders.cliOutcome = .otherError)
    ∧ (envNoProviders.apiConfigured = false ∨ envNoProviders.apiResult = none
        ∨ envNoProviders.apiResult = some "")
    ∧ (lookupFile (processRequest envNoProviders ⟨"fb1", .ok reqSimple⟩
          ⟨[⟨"fb1", .ok reqSimple⟩], []⟩).responses "fb1"
        = some (completedJson "fb1" (pyUserId reqSimple)
            (generate_mock_response reqSimple envNoProviders.nowHMS)
            envNoProviders.nowIso)
      ∧ getField (completedJson "fb1" (pyUserId reqSimple)
            (generate_mock_response reqSimple envNoProviders.nowHMS)
            envNoProviders.nowIso) "status" = some (.jstr "completed")) :=
  ⟨Or.inl rfl, Or.inl rfl,
    provider_fallback envNoProviders reqSimple "fb1"
      ⟨[⟨"fb1", .ok reqSimple⟩], []⟩ (Or.inl rfl) (Or.inl rfl)⟩

/-- C9: once the running flag is false, the consumer begins no new work:
a false flag at the outer check means no further sweep starts, a false
flag at the per-file check means no further file of the sweep starts,
and a file whose check passed is processed to completion — its response
is written — even when the flag goes false during its processing. -/
theorem graceful_shutdown (env : ProviderEnv) (flags : Nat → Bool)
    (fuel k j : Nat) (st st2 : FsState) (files : List ReqFile) (f : ReqFile)
    (fs : List ReqFile) (hk : flags k = false) (hj : flags j = true)
    (hj1 : flags (j + 1) = false) :
    monitorQueue env flags fuel k st = st
    ∧ sweepFiles env flags k files st = (st, k)
    ∧ sweepFiles env flags j (f :: fs) st2 = (processRequest env f st2, j + 1)
    ∧ (lookupFile (processRequest env f st2).responses f.id).isSome = true := by
  refine ⟨?_, ?_, ?_, ?_⟩
  · cases fuel with
    | zero => rfl
    | succ n => simp [monitorQueue, hk]
  · cases files with
    | nil => rfl
    | cons a l => simp [sweepFiles, hk]
  · cases fs with
    | nil => simp [sweepFiles, hj]
    | cons b l => simp [sweepFiles, hj, hj1]
  · cases f with
    | mk id p =>
      cases p with
      | ok r => simp [processRequest, lookupFile_setFile_self]
      | malformed e => simp [processRequest, lookupFile_setFile_self]

/-- Witness for C9 with a flag that drops after the first check. -/
theorem graceful_shutdown_witness :
    (fun i => decide (i = 0)) 1 = false
    ∧ (fun i => decide (i = 0)) 0 = true
    ∧ (fun i => decide (i = 0)) (0 + 1) = false
    ∧ (monitorQueue envNoProviders (fun i => decide (i = 0)) 2 1 ⟨[], []⟩
        = ⟨[], []⟩
      ∧ sweepFiles envNoProviders (fun i => decide (i = 0)) 1 [badFile]
          ⟨[], []⟩ = (⟨[], []⟩, 1)
      ∧ sweepFiles envNoProviders (fun i => decide (i = 0)) 0
          (⟨"r1", .ok reqSimple⟩ :: [badFile]) ⟨[], []⟩
        = (processRequest envNoProviders ⟨"r1", .ok reqSimple⟩ ⟨[], []⟩, 0 + 1)
      ∧ (lookupFile (processRequest envNoProviders ⟨"r1", .ok reqSimple⟩
          ⟨[], []⟩).responses (ReqFile.mk "r1" (.ok reqSimple)).id).isSome
          = true) :=
  ⟨rfl, rfl, rfl,
    graceful_shutdown envNoProviders (fun i => decide (i = 0)) 2 1 0 ⟨[], []⟩
      ⟨[], []⟩ [badFile] ⟨"r1", .ok reqSimple⟩ [badFile] rfl rfl rfl⟩

end QueueProc
